import Mathlib

/-!
Verification of the core business rules of the `school_management` Django
application (`core/models.py`, `teacher/views.py`) against its specification.

The Python code is shallowly embedded: model instances become Lean structures,
Django query sets over a table become Lean lists of records, and each
state-mutating operation becomes a function from the old table contents to the
new ones.  Python/Decimal `round(x, n)` rounds half to even, which is modelled
by `roundHalfEven` / `pyround` below.  Nullable columns are `Option` fields.
-/

namespace SchoolMgmt

/-- Round a rational to the nearest integer, ties going to the even integer.
This is the rounding mode used by Python's builtin `round` (both on floats and
on `Decimal` values, whose default context is `ROUND_HALF_EVEN`). -/
def roundHalfEven (x : ℚ) : ℤ :=
  let f : ℤ := ⌊x⌋
  let frac : ℚ := x - f
  if frac < 1/2 then f
  else if frac > 1/2 then f + 1
  else if f % 2 = 0 then f else f + 1

/-- Python `round(x, nd)`: round to `nd` decimal places, half to even. -/
def pyround (x : ℚ) (nd : ℕ) : ℚ :=
  (roundHalfEven (x * 10 ^ nd) : ℚ) / 10 ^ nd

/-- `Grade.calculate_letter_grade` from `core/models.py` (lines 690-717):
the cascade of `if percentage >= c` threshold tests. -/
def calculate_letter_grade (percentage : ℚ) : String :=
  if percentage ≥ 97 then "A+"
  else if percentage ≥ 93 then "A"
  else if percentage ≥ 90 then "A-"
  else if percentage ≥ 87 then "B+"
  else if percentage ≥ 83 then "B"
  else if percentage ≥ 80 then "B-"
  else if percentage ≥ 77 then "C+"
  else if percentage ≥ 73 then "C"
  else if percentage ≥ 70 then "C-"
  else if percentage ≥ 67 then "D+"
  else if percentage ≥ 63 then "D"
  else if percentage ≥ 60 then "D-"
  else "F"

/-- A row of the `Grade` table (`core/models.py`).  `student` and `subject`
stand for the foreign keys; `percentage` and `letter_grade` are nullable
(`blank=True, null=True`) auto-calculated columns. -/
structure Grade where
  student : ℕ
  subject : ℕ
  grade_type : String
  title : String
  marks_obtained : Option ℚ
  total_marks : Option ℚ
  percentage : Option ℚ
  letter_grade : Option String
  is_published : Bool

/-- `Grade.save` (`core/models.py` lines 683-688): when both marks fields are
non-null and `total_marks > 0`, recompute `percentage` and `letter_grade`;
otherwise persist the record unchanged. -/
def Grade.save (g : Grade) : Grade :=
  match g.marks_obtained, g.total_marks with
  | some m, some t =>
    if t > 0 then
      let p := pyround (m / t * 100) 2
      { g with percentage := some p,
               letter_grade := some (calculate_letter_grade p) }
    else g
  | _, _ => g

theorem clg_eval_Ap {p : ℚ} (hl : 97 ≤ p) : calculate_letter_grade p = "A+" := by
  unfold calculate_letter_grade
  rw [if_pos (by linarith)]

theorem clg_eval_A {p : ℚ} (hl : 93 ≤ p) (hu : p < 97) :
    calculate_letter_grade p = "A" := by
  unfold calculate_letter_grade
  rw [if_neg (by intro h; linarith), if_pos (by linarith)]

theorem clg_eval_Am {p : ℚ} (hl : 90 ≤ p) (hu : p < 93) :
    calculate_letter_grade p = "A-" := by
  unfold calculate_letter_grade
  rw [if_neg (by intro h; linarith), if_neg (by intro h; linarith),
      if_pos (by linarith)]

theorem clg_eval_Bp {p : ℚ} (hl : 87 ≤ p) (hu : p < 90) :
    calculate_letter_grade p = "B+" := by
  unfold calculate_letter_grade
  rw [if_neg (by intro h; linarith), if_neg (by intro h; linarith),
      if_neg (by intro h; linarith), if_pos (by linarith)]

theorem clg_eval_B {p : ℚ} (hl : 83 ≤ p) (hu : p < 87) :
    calculate_letter_grade p = "B" := by
  unfold calculate_letter_grade
  rw [if_neg (by intro h; linarith), if_neg (by intro h; linarith),
      if_neg (by intro h; linarith), if_neg (by intro h; linarith),
      if_pos (by linarith)]

theorem clg_eval_Bm {p : ℚ} (hl : 80 ≤ p) (hu : p < 83) :
    calculate_letter_grade p = "B-" := by
  unfold calculate_letter_grade
  rw [if_neg (by intro h; linarith), if_neg (by intro h; linarith),
      if_neg (by intro h; linarith), if_neg (by intro h; linarith),
      if_neg (by intro h; linarith), if_pos (by linarith)]

theorem clg_eval_Cp {p : ℚ} (hl : 77 ≤ p) (hu : p < 80) :
    calculate_letter_grade p = "C+" := by
  unfold calculate_letter_grade
  rw [if_neg (by intro h; linarith), if_neg (by intro h; linarith),
      if_neg (by intro h; linarith), if_neg (by intro h; linarith),
      if_neg (by intro h; linarith), if_neg (by intro h; linarith),
      if_pos (by linarith)]

theorem clg_eval_C {p : ℚ} (hl : 73 ≤ p) (hu : p < 77) :
    calculate_letter_grade p = "C" := by
  unfold calculate_letter_grade
  rw [if_neg (by intro h; linarith), if_neg (by intro h; linarith),
      if_neg (by intro h; linarith), if_neg (by intro h; linarith),
      if_neg (by intro h; linarith), if_neg (by intro h; linarith),
      if_neg (by intro h; linarith), if_pos (by linarith)]

theorem clg_eval_Cm {p : ℚ} (hl : 70 ≤ p) (hu : p < 73) :
    calculate_letter_grade p = "C-" := by
  unfold calculate_letter_grade
  rw [if_neg (by intro h; linarith), if_neg (by intro h; linarith),
      if_neg (by intro h; linarith), if_neg (by intro h; linarith),
      if_neg (by intro h; linarith), if_neg (by intro h; linarith),
      if_neg (by intro h; linarith), if_neg (by intro h; linarith),
      if_pos (by linarith)]

theorem clg_eval_Dp {p : ℚ} (hl : 67 ≤ p) (hu : p < 70) :
    calculate_letter_grade p = "D+" := by
  unfold calculate_letter_grade
  rw [if_neg (by intro h; linarith), if_neg (by intro h; linarith),
      if_neg (by intro h; linarith), if_neg (by intro h; linarith),
      if_neg (by intro h; linarith), if_neg (by intro h; linarith),
      if_neg (by intro h; linarith), if_neg (by intro h; linarith),
      if_neg (by intro h; linarith), if_pos (by linarith)]

theorem clg_eval_D {p : ℚ} (hl : 63 ≤ p) (hu : p < 67) :
    calculate_letter_grade p = "D" := by
  unfold calculate_letter_grade
  rw [if_neg (by intro h; linarith), if_neg (by intro h; linarith),
      if_neg (by intro h; linarith), if_neg (by intro h; linarith),
      if_neg (by intro h; linarith), if_neg (by intro h; linarith),
      if_neg (by intro h; linarith), if_neg (by intro h; linarith),
      if_neg (by intro h; linarith), if_neg (by intro h; linarith),
      if_pos (by linarith)]

theorem clg_eval_Dm {p : ℚ} (hl : 60 ≤ p) (hu : p < 63) :
    calculate_letter_grade p = "D-" := by
  unfold calculate_letter_grade
  rw [if_neg (by intro h; linarith), if_neg (by intro h; linarith),
      if_neg (by intro h; linarith), if_neg (by intro h; linarith),
      if_neg (by intro h; linarith), if_neg (by intro h; linarith),
      if_neg (by intro h; linarith), if_neg (by intro h; linarith),
      if_neg (by intro h; linarith), if_neg (by intro h; linarith),
      if_neg (by intro h; linarith), if_pos (by linarith)]

theorem clg_eval_F {p : ℚ} (hu : p < 60) : calculate_letter_grade p = "F" := by
  unfold calculate_letter_grade
  rw [if_neg (by intro h; linarith), if_neg (by intro h; linarith),
      if_neg (by intro h; linarith), if_neg (by intro h; linarith),
      if_neg (by intro h; linarith), if_neg (by intro h; linarith),
      if_neg (by intro h; linarith), if_neg (by intro h; linarith),
      if_neg (by intro h; linarith), if_neg (by intro h; linarith),
      if_neg (by intro h; linarith), if_neg (by intro h; linarith)]

/-- Claim C1: for every percentage value `p`, `calculate_letter_grade p`
returns exactly the letter fixed by the threshold table: `A+` iff `p ≥ 97`,
`A` iff `93 ≤ p < 97`, ..., `D-` iff `60 ≤ p < 63`, and `F` iff `p < 60`;
being a Lean function of `p`, the result is deterministic in `p` alone. -/
theorem calculate_letter_grade_thresholds (p : ℚ) :
    (calculate_letter_grade p = "A+" ↔ 97 ≤ p) ∧
    (calculate_letter_grade p = "A" ↔ 93 ≤ p ∧ p < 97) ∧
    (calculate_letter_grade p = "A-" ↔ 90 ≤ p ∧ p < 93) ∧
    (calculate_letter_grade p = "B+" ↔ 87 ≤ p ∧ p < 90) ∧
    (calculate_letter_grade p = "B" ↔ 83 ≤ p ∧ p < 87) ∧
    (calculate_letter_grade p = "B-" ↔ 80 ≤ p ∧ p < 83) ∧
    (calculate_letter_grade p = "C+" ↔ 77 ≤ p ∧ p < 80) ∧
    (calculate_letter_grade p = "C" ↔ 73 ≤ p ∧ p < 77) ∧
    (calculate_letter_grade p = "C-" ↔ 70 ≤ p ∧ p < 73) ∧
    (calculate_letter_grade p = "D+" ↔ 67 ≤ p ∧ p < 70) ∧
    (calculate_letter_grade p = "D" ↔ 63 ≤ p ∧ p < 67) ∧
    (calculate_letter_grade p = "D-" ↔ 60 ≤ p ∧ p < 63) ∧
    (calculate_letter_grade p = "F" ↔ p < 60) := by
  rcases le_or_lt 97 p with h97 | h97
  · rw [clg_eval_Ap h97]
    refine ⟨?_, ?_, ?_, ?_, ?_, ?_, ?_, ?_, ?_, ?_, ?_, ?_, ?_⟩ <;>
      first
        | exact iff_of_true rfl (by linarith)
        | exact iff_of_false (by decide) (by rintro ⟨a, b⟩; linarith)
        | exact iff_of_false (by decide) (by intro a; linarith)
  · rcases le_or_lt 93 p with h93 | h93
    · rw [clg_eval_A h93 h97]
      refine ⟨?_, ?_, ?_, ?_, ?_, ?_, ?_, ?_, ?_, ?_, ?_, ?_, ?_⟩ <;>
        first
          | exact iff_of_true rfl (by constructor <;> linarith)
          | exact iff_of_false (by decide) (by rintro ⟨a, b⟩; linarith)
          | exact iff_of_false (by decide) (by intro a; linarith)
    · rcases le_or_lt 90 p with h90 | h90
      · rw [clg_eval_Am h90 h93]
        refine ⟨?_, ?_, ?_, ?_, ?_, ?_, ?_, ?_, ?_, ?_, ?_, ?_, ?_⟩ <;>
          first
            | exact iff_of_true rfl (by constructor <;> linarith)
            | exact iff_of_false (by decide) (by rintro ⟨a, b⟩; linarith)
            | exact iff_of_false (by decide) (by intro a; linarith)
      · rcases le_or_lt 87 p with h87 | h87
        · rw [clg_eval_Bp h87 h90]
          refine ⟨?_, ?_, ?_, ?_, ?_, ?_, ?_, ?_, ?_, ?_, ?_, ?_, ?_⟩ <;>
            first
              | exact iff_of_true rfl (by constructor <;> linarith)
              | exact iff_of_false (by decide) (by rintro ⟨a, b⟩; linarith)
              | exact iff_of_false (by decide) (by intro a; linarith)
        · rcases le_or_lt 83 p with h83 | h83
          · rw [clg_eval_B h83 h87]
            refine ⟨?_, ?_, ?_, ?_, ?_, ?_, ?_, ?_, ?_, ?_, ?_, ?_, ?_⟩ <;>
              first
                | exact iff_of_true rfl (by constructor <;> linarith)
                | exact iff_of_false (by decide) (by rintro ⟨a, b⟩; linarith)
                | exact iff_of_false (by decide) (by intro a; linarith)
          · rcases le_or_lt 80 p with h80 | h80
            · rw [clg_eval_Bm h80 h83]
              refine ⟨?_, ?_, ?_, ?_, ?_, ?_, ?_, ?_, ?_, ?_, ?_, ?_, ?_⟩ <;>
                first
                  | exact iff_of_true rfl (by constructor <;> linarith)
                  | exact iff_of_false (by decide) (by rintro ⟨a, b⟩; linarith)
                  | exact iff_of_false (by decide) (by intro a; linarith)
            · rcases le_or_lt 77 p with h77 | h77
              · rw [clg_eval_Cp h77 h80]
                refine ⟨?_, ?_, ?_, ?_, ?_, ?_, ?_, ?_, ?_, ?_, ?_, ?_, ?_⟩ <;>
                  first
                    | exact iff_of_true rfl (by constructor <;> linarith)
                    | exact iff_of_false (by decide) (by rintro ⟨a, b⟩; linarith)
                    | exact iff_of_false (by decide) (by intro a; linarith)
              · rcases le_or_lt 73 p with h73 | h73
                · rw [clg_eval_C h73 h77]
                  refine ⟨?_, ?_, ?_, ?_, ?_, ?_, ?_, ?_, ?_, ?_, ?_, ?_, ?_⟩ <;>
                    first
                      | exact iff_of_true rfl (by constructor <;> linarith)
                      | exact iff_of_false (by decide) (by rintro ⟨a, b⟩; linarith)
                      | exact iff_of_false (by decide) (by intro a; linarith)
                · rcases le_or_lt 70 p with h70 | h70
                  · rw [clg_eval_Cm h70 h73]
                    refine ⟨?_, ?_, ?_, ?_, ?_, ?_, ?_, ?_, ?_, ?_, ?_, ?_, ?_⟩ <;>
                      first
                        | exact iff_of_true rfl (by constructor <;> linarith)
                        | exact iff_of_false (by decide) (by rintro ⟨a, b⟩; linarith)
                        | exact iff_of_false (by decide) (by intro a; linarith)
                  · rcases le_or_lt 67 p with h67 | h67
                    · rw [clg_eval_Dp h67 h70]
                      refine ⟨?_, ?_, ?_, ?_, ?_, ?_, ?_, ?_, ?_, ?_, ?_, ?_, ?_⟩ <;>
                        first
                          | exact iff_of_true rfl (by constructor <;> linarith)
                          | exact iff_of_false (by decide) (by rintro ⟨a, b⟩; linarith)
                          | exact iff_of_false (by decide) (by intro a; linarith)
                    · rcases le_or_lt 63 p with h63 | h63
                      · rw [clg_eval_D h63 h67]
                        refine ⟨?_, ?_, ?_, ?_, ?_, ?_, ?_, ?_, ?_, ?_, ?_, ?_, ?_⟩ <;>
                          first
                            | exact iff_of_true rfl (by constructor <;> linarith)
                            | exact iff_of_false (by decide) (by rintro ⟨a, b⟩; linarith)
                            | exact iff_of_false (by decide) (by intro a; linarith)
                      · rcases le_or_lt 60 p with h60 | h60
                        · rw [clg_eval_Dm h60 h63]
                          refine ⟨?_, ?_, ?_, ?_, ?_, ?_, ?_, ?_, ?_, ?_, ?_, ?_, ?_⟩ <;>
                            first
                              | exact iff_of_true rfl (by constructor <;> linarith)
                              | exact iff_of_false (by decide) (by rintro ⟨a, b⟩; linarith)
                              | exact iff_of_false (by decide) (by intro a; linarith)
                        · rw [clg_eval_F h60]
                          refine ⟨?_, ?_, ?_, ?_, ?_, ?_, ?_, ?_, ?_, ?_, ?_, ?_, ?_⟩ <;>
                            first
                              | exact iff_of_true rfl (by linarith)
                              | exact iff_of_false (by decide) (by rintro ⟨a, b⟩; linarith)
                              | exact iff_of_false (by decide) (by intro a; linarith)

/-- Witness for C1: evaluate the threshold table at `p = 85`. -/
theorem calculate_letter_grade_thresholds_witness :
    calculate_letter_grade 85 = "B" ∧ (83 : ℚ) ≤ 85 ∧ (85 : ℚ) < 87 := by
  have h := (calculate_letter_grade_thresholds 85).2.2.2.2.1
  exact ⟨h.mpr (by norm_num), by norm_num, by norm_num⟩

/-- A concrete `Grade` row with marks present but `total_marks = 0`.  Django
would accept such a row (the field only forbids NULL, not zero). -/
def gradeZeroTotal : Grade :=
  { student := 1, subject := 1, grade_type := "quiz", title := "Quiz 1",
    marks_obtained := some 50, total_marks := some 0,
    percentage := none, letter_grade := none, is_published := true }

/-- Counterexample to C2 as stated: with `marks_obtained` and `total_marks`
both present on the record but `total_marks = 0`, `Grade.save` skips the
derivation entirely (the guard `total_marks > 0` fails), so `percentage`
stays NULL instead of being set to any rounded value. -/
theorem grade_save_zero_total_counterexample :
    gradeZeroTotal.marks_obtained = some 50 ∧
    gradeZeroTotal.total_marks = some 0 ∧
    (Grade.save gradeZeroTotal).percentage = none ∧
    (Grade.save gradeZeroTotal).letter_grade = none := by
  refine ⟨rfl, rfl, ?_, ?_⟩ <;> norm_num [Grade.save, gradeZeroTotal]

/-- Claim C2 (amended): on every save of a `Grade` record whose
`marks_obtained` and `total_marks` are present, if `total_marks > 0` the
stored `percentage` becomes `round(marks_obtained / total_marks * 100, 2)`
and the stored `letter_grade` becomes `calculate_letter_grade` of that
percentage; if `total_marks ≤ 0` the save leaves the record unchanged. -/
theorem grade_save_derivation (g : Grade) (m t : ℚ)
    (hm : g.marks_obtained = some m) (ht : g.total_marks = some t) :
    (0 < t →
      g.save.percentage = some (pyround (m / t * 100) 2) ∧
      g.save.letter_grade =
        some (calculate_letter_grade (pyround (m / t * 100) 2))) ∧
    (¬ 0 < t → g.save = g) := by
  constructor
  · intro h0
    simp only [Grade.save, hm, ht, if_pos (show t > 0 from h0)]
    constructor <;> trivial
  · intro h0
    simp only [Grade.save, hm, ht, if_neg (show ¬ t > 0 from h0)]

/-- A concrete `Grade` row with marks 50 out of 80 (62.5 %). -/
def gradeDemo : Grade :=
  { student := 2, subject := 3, grade_type := "test", title := "Test 1",
    marks_obtained := some 50, total_marks := some 80,
    percentage := none, letter_grade := none, is_published := true }

/-- Witness for C2 (amended): saving a 50/80 grade stores 62.5 % and `D-`. -/
theorem grade_save_derivation_witness :
    (Grade.save gradeDemo).percentage = some (125/2) ∧
    (Grade.save gradeDemo).letter_grade = some "D-" := by
  have hp : pyround ((50 : ℚ) / 80 * 100) 2 = 125/2 := by
    norm_num [pyround, roundHalfEven]
  have h := (grade_save_derivation gradeDemo 50 80 rfl rfl).1 (by norm_num)
  refine ⟨?_, ?_⟩
  · rw [h.1, hp]
  · rw [h.2, hp, clg_eval_Dm (by norm_num) (by norm_num)]

/-- A row of the `Subject` table (`core/models.py`): primary key, the class it
is taught to, name, and the `is_mandatory` / `is_active` flags. -/
structure Subject where
  id : ℕ
  class_assigned : ℕ
  name : String
  is_mandatory : Bool
  is_active : Bool

/-- A `StudentProfile` row: primary key and the nullable
(`null=True, on_delete=SET_NULL`) class foreign key. -/
structure StudentProfile where
  id : ℕ
  class_assigned : Option ℕ

/-- A row of the `StudentSubjectEnrollment` table: the two foreign keys and
the `is_active` flag. -/
structure Enrollment where
  student : ℕ
  subject : ℕ
  is_active : Bool
deriving DecidableEq

/-- The Django filter `student=st, subject=subj` on enrollments. -/
def enrollmentFor (stId subjId : ℕ) (e : Enrollment) : Bool :=
  e.student == stId && e.subject == subjId

/-- The Django filter `student=st, subject=subj, is_active=True`. -/
def activeEnrollmentFor (stId subjId : ℕ) (e : Enrollment) : Bool :=
  e.student == stId && e.subject == subjId && e.is_active

/-- `StudentProfile.get_enrollment_count` (`core/models.py` lines 175-177):
`self.enrollments.count()` — all enrollment rows of the student, with no
filter on `is_active`. -/
def get_enrollment_count (db : List Enrollment) (st : StudentProfile) : ℕ :=
  (db.filter (fun e => e.student == st.id)).length

/-- Number of ACTIVE enrollment rows of a student (what the spec's
"active enrollments" denotes; not a method of the source, used to state the
invariant). -/
def activeEnrollmentCount (db : List Enrollment) (stId : ℕ) : ℕ :=
  (db.filter (fun e => e.student == stId && e.is_active)).length

/-- `StudentProfile.can_enroll_in_subject` (`core/models.py` lines 189-207):
the four guards in source order.  `not self.class_assigned or
subject.class_assigned != self.class_assigned` is exactly
`st.class_assigned ≠ some subj.class_assigned`. -/
def can_enroll_in_subject (db : List Enrollment) (st : StudentProfile)
    (subj : Subject) : Bool × String :=
  if st.class_assigned ≠ some subj.class_assigned then
    (false, "Subject is not available for your class")
  else if db.any (activeEnrollmentFor st.id subj.id) then
    (false, "Already enrolled in this subject")
  else if get_enrollment_count db st ≥ 8 then
    (false, "Maximum subject limit reached (8 subjects)")
  else if subj.is_active = false then
    (false, "Subject is not currently active")
  else
    (true, "Can enroll")

/-- Setting `is_active = True` on the enrollment row of `(stId, subjId)`.
Django's `enrollment.save()` updates the single row found by
`get_or_create`; mapping over the table updates every row with that key,
which coincides with it whenever the `unique_together ['student', 'subject']`
constraint holds. -/
def reactivateEnrollment (stId subjId : ℕ) (e : Enrollment) : Enrollment :=
  if e.student == stId && e.subject == subjId then { e with is_active := true }
  else e

/-- `StudentProfile.enroll_in_subject` (`core/models.py` lines 209-228):
guard check, then `get_or_create` keyed on `(student, subject)` with default
`is_active=True`, re-activating an existing inactive row.  Returns
`(ok, message, new table)`. -/
def enroll_in_subject (db : List Enrollment) (st : StudentProfile)
    (subj : Subject) : Bool × String × List Enrollment :=
  let check := can_enroll_in_subject db st subj
  if check.1 = false then (false, check.2, db)
  else
    match db.find? (enrollmentFor st.id subj.id) with
    | some e =>
      if e.is_active = false then
        (true, "Successfully re-enrolled in subject",
          db.map (reactivateEnrollment st.id subj.id))
      else (false, "Already enrolled in this subject", db)
    | none =>
      (true, "Successfully enrolled in subject",
        db ++ [{ student := st.id, subject := subj.id, is_active := true }])

/-- `StudentProfile.unenroll_from_subject` (`core/models.py` lines 231-255):
look up the first active enrollment row for `(student, subject)`; refuse if
none or if the subject is mandatory; otherwise delete that row. -/
def unenroll_from_subject (db : List Enrollment) (st : StudentProfile)
    (subj : Subject) : Bool × String × List Enrollment :=
  match db.find? (activeEnrollmentFor st.id subj.id) with
  | none => (false, "You are not enrolled in this subject", db)
  | some _ =>
    if subj.is_mandatory then
      (false, "Cannot unenroll from mandatory subjects", db)
    else
      (true, "Successfully unenrolled from " ++ subj.name,
        db.eraseP (activeEnrollmentFor st.id subj.id))

/-- Enrollment-table states reachable from the empty table through the two
student-facing operations (with arbitrary student and subject rows). -/
inductive EnrollmentReachable : List Enrollment → Prop where
  | init : EnrollmentReachable []
  | enroll (db : List Enrollment) (st : StudentProfile) (subj : Subject) :
      EnrollmentReachable db →
      EnrollmentReachable (enroll_in_subject db st subj).2.2
  | unenroll (db : List Enrollment) (st : StudentProfile) (subj : Subject) :
      EnrollmentReachable db →
      EnrollmentReachable (unenroll_from_subject db st subj).2.2

theorem length_filter_le_of_imp {α} (p q : α → Bool) (l : List α)
    (h : ∀ a, p a = true → q a = true) :
    (l.filter p).length ≤ (l.filter q).length := by
  induction l with
  | nil => simp
  | cons x xs ih =>
    by_cases hx : p x = true
    · rw [List.filter_cons_of_pos (by exact hx),
          List.filter_cons_of_pos (by exact h x hx)]
      simpa using ih
    · rw [List.filter_cons_of_neg (by simpa using hx)]
      by_cases hq : q x = true
      · rw [List.filter_cons_of_pos (by exact hq)]
        exact Nat.le_succ_of_le ih
      · rw [List.filter_cons_of_neg (by simpa using hq)]
        exact ih

theorem length_filter_map_eq {α} (f : α → α) (p : α → Bool) (l : List α)
    (h : ∀ a, p (f a) = p a) :
    ((l.map f).filter p).length = (l.filter p).length := by
  induction l with
  | nil => simp
  | cons x xs ih =>
    rw [List.map_cons]
    by_cases hx : p x = true
    · rw [List.filter_cons_of_pos (by rw [h x]; exact hx),
          List.filter_cons_of_pos (by exact hx)]
      simpa using ih
    · rw [List.filter_cons_of_neg (by rw [h x]; simpa using hx),
          List.filter_cons_of_neg (by simpa using hx)]
      exact ih

theorem length_filter_append_single {α} (p : α → Bool) (l : List α) (x : α) :
    ((l ++ [x]).filter p).length =
      (l.filter p).length + (if p x = true then 1 else 0) := by
  rw [List.filter_append]
  by_cases hx : p x = true
  · rw [if_pos hx, List.filter_cons_of_pos (by exact hx)]
    simp
  · rw [if_neg hx, List.filter_cons_of_neg (by simpa using hx)]
    simp

theorem length_filter_eraseP_le {α} (p q : α → Bool) (l : List α) :
    ((l.eraseP p).filter q).length ≤ (l.filter q).length :=
  ((List.eraseP_sublist l).filter q).length_le

/-- Enrollment rows of one student, counted by student id
(`get_enrollment_count` keyed by id; they are definitionally equal). -/
def studentRecordCount (db : List Enrollment) (sid : ℕ) : ℕ :=
  (db.filter (fun e => e.student == sid)).length

/-- Enrollment rows for one `(student, subject)` pair. -/
def pairEnrollmentCount (db : List Enrollment) (stId subjId : ℕ) : ℕ :=
  (db.filter (enrollmentFor stId subjId)).length

theorem get_enrollment_count_eq_record_count (db : List Enrollment)
    (st : StudentProfile) :
    get_enrollment_count db st = studentRecordCount db st.id := rfl

theorem reactivate_student_eq (stId subjId : ℕ) (e : Enrollment) :
    (reactivateEnrollment stId subjId e).student = e.student := by
  unfold reactivateEnrollment
  split <;> rfl

theorem reactivate_subject_eq (stId subjId : ℕ) (e : Enrollment) :
    (reactivateEnrollment stId subjId e).subject = e.subject := by
  unfold reactivateEnrollment
  split <;> rfl

theorem can_enroll_true_guards (db : List Enrollment) (st : StudentProfile)
    (subj : Subject) (h : (can_enroll_in_subject db st subj).1 = true) :
    st.class_assigned = some subj.class_assigned ∧
    db.any (activeEnrollmentFor st.id subj.id) = false ∧
    get_enrollment_count db st < 8 ∧
    subj.is_active = true := by
  unfold can_enroll_in_subject at h
  split_ifs at h with h1 h2 h3 h4
  refine ⟨not_not.mp h1, by simpa using h2, by omega, ?_⟩
  cases hb : subj.is_active
  · exact absurd hb h4
  · rfl

theorem can_enroll_fst_false_of_limit (db : List Enrollment)
    (st : StudentProfile) (subj : Subject)
    (h8 : get_enrollment_count db st ≥ 8) :
    (can_enroll_in_subject db st subj).1 = false := by
  unfold can_enroll_in_subject
  split_ifs <;> rfl

theorem enroll_of_check_false (db : List Enrollment) (st : StudentProfile)
    (subj : Subject) (h : (can_enroll_in_subject db st subj).1 = false) :
    enroll_in_subject db st subj =
      (false, (can_enroll_in_subject db st subj).2, db) := by
  unfold enroll_in_subject
  simp [h]

theorem enroll_state_cases (db : List Enrollment) (st : StudentProfile)
    (subj : Subject) :
    (enroll_in_subject db st subj).2.2 = db ∨
    ((can_enroll_in_subject db st subj).1 = true ∧
      ((enroll_in_subject db st subj).2.2 =
          db.map (reactivateEnrollment st.id subj.id) ∨
        (db.find? (enrollmentFor st.id subj.id) = none ∧
          (enroll_in_subject db st subj).2.2 =
            db ++ [{ student := st.id, subject := subj.id,
                     is_active := true }]))) := by
  by_cases hc : (can_enroll_in_subject db st subj).1 = false
  · left
    rw [enroll_of_check_false db st subj hc]
  · have hc' : (can_enroll_in_subject db st subj).1 = true := by
      cases hb : (can_enroll_in_subject db st subj).1
      · exact absurd hb hc
      · rfl
    cases hfind : db.find? (enrollmentFor st.id subj.id) with
    | none =>
      right
      exact ⟨hc', Or.inr ⟨rfl, by simp [enroll_in_subject, hc', hfind]⟩⟩
    | some e =>
      by_cases ha : e.is_active = false
      · right
        exact ⟨hc', Or.inl (by simp [enroll_in_subject, hc', hfind, ha])⟩
      · left
        simp [enroll_in_subject, hc', hfind, ha]

theorem unenroll_state_cases (db : List Enrollment) (st : StudentProfile)
    (subj : Subject) :
    (unenroll_from_subject db st subj).2.2 = db ∨
    (unenroll_from_subject db st subj).2.2 =
      db.eraseP (activeEnrollmentFor st.id subj.id) := by
  unfold unenroll_from_subject
  cases hfind : db.find? (activeEnrollmentFor st.id subj.id) with
  | none => left; rfl
  | some e =>
    by_cases hm : subj.is_mandatory = true
    · left; simp [hm]
    · right; simp [hm]

theorem studentRecordCount_enroll (db : List Enrollment)
    (st : StudentProfile) (subj : Subject)
    (h : ∀ sid, studentRecordCount db sid ≤ 8) :
    ∀ sid, studentRecordCount (enroll_in_subject db st subj).2.2 sid ≤ 8 := by
  intro sid
  rcases enroll_state_cases db st subj with heq | ⟨hc, heq | ⟨-, heq⟩⟩
  · rw [heq]; exact h sid
  · rw [heq]
    unfold studentRecordCount
    rw [length_filter_map_eq _ _ _ (fun a => by rw [reactivate_student_eq])]
    exact h sid
  · rw [heq]
    unfold studentRecordCount
    rw [length_filter_append_single]
    have h8 : get_enrollment_count db st < 8 :=
      (can_enroll_true_guards db st subj hc).2.2.1
    by_cases hs : st.id = sid
    · subst hs
      rw [if_pos (by simp)]
      have h8' : (db.filter (fun e => e.student == st.id)).length < 8 := h8
      omega
    · rw [if_neg (by simp [hs])]
      simpa using h sid

theorem studentRecordCount_unenroll_le (db : List Enrollment)
    (st : StudentProfile) (subj : Subject) (sid : ℕ) :
    studentRecordCount (unenroll_from_subject db st subj).2.2 sid ≤
      studentRecordCount db sid := by
  rcases unenroll_state_cases db st subj with heq | heq
  · rw [heq]
  · rw [heq]
    exact length_filter_eraseP_le _ _ _

theorem reachable_studentRecordCount_le (db : List Enrollment)
    (h : EnrollmentReachable db) : ∀ sid, studentRecordCount db sid ≤ 8 := by
  induction h with
  | init => intro sid; simp [studentRecordCount]
  | enroll db st subj hr ih => exact studentRecordCount_enroll db st subj ih
  | unenroll db st subj hr ih =>
    intro sid
    exact le_trans (studentRecordCount_unenroll_le db st subj sid) (ih sid)

theorem activeCount_le_recordCount (db : List Enrollment) (sid : ℕ) :
    activeEnrollmentCount db sid ≤ studentRecordCount db sid :=
  length_filter_le_of_imp _ _ db (fun a ha => by
    simp only [Bool.and_eq_true] at ha
    exact ha.1)

/-- Claim C3: `enroll_in_subject` refuses — returning failure and leaving the
enrollment table unchanged — whenever the student's enrollment count is
already 8 or more, and consequently every table reachable from the empty one
via `enroll_in_subject` / `unenroll_from_subject` holds at most 8 active
enrollment rows per student. -/
theorem enrollment_limit_invariant :
    (∀ (db : List Enrollment) (st : StudentProfile) (subj : Subject),
        8 ≤ get_enrollment_count db st →
        (enroll_in_subject db st subj).1 = false ∧
        (enroll_in_subject db st subj).2.2 = db) ∧
    (∀ db : List Enrollment, EnrollmentReachable db →
        ∀ sid : ℕ, activeEnrollmentCount db sid ≤ 8) := by
  constructor
  · intro db st subj h8
    have hc := can_enroll_fst_false_of_limit db st subj h8
    rw [enroll_of_check_false db st subj hc]
    exact ⟨rfl, rfl⟩
  · intro db h sid
    exact le_trans (activeCount_le_recordCount db sid)
      (reachable_studentRecordCount_le db h sid)

/-- A student (id 1, class 5) already holding 8 enrollment rows
(subjects 10-17, all inactive). -/
def demoDb8 : List Enrollment :=
  [⟨1, 10, false⟩, ⟨1, 11, false⟩, ⟨1, 12, false⟩, ⟨1, 13, false⟩,
   ⟨1, 14, false⟩, ⟨1, 15, false⟩, ⟨1, 16, false⟩, ⟨1, 17, false⟩]

/-- The student owning the rows of `demoDb8`. -/
def demoStudent : StudentProfile := ⟨1, some 5⟩

/-- Subject 10 of class 5: active, optional, matching `demoStudent`'s class. -/
def demoSubject10 : Subject :=
  { id := 10, class_assigned := 5, name := "Algebra",
    is_mandatory := false, is_active := true }

/-- Witness for C3: at the 8-row table, enrollment is refused and the table
is untouched; the empty table satisfies the active-enrollment bound. -/
theorem enrollment_limit_invariant_witness :
    ((enroll_in_subject demoDb8 demoStudent demoSubject10).1 = false ∧
      (enroll_in_subject demoDb8 demoStudent demoSubject10).2.2 = demoDb8) ∧
    activeEnrollmentCount [] 1 ≤ 8 :=
  ⟨enrollment_limit_invariant.1 demoDb8 demoStudent demoSubject10 (by decide),
   enrollment_limit_invariant.2 [] EnrollmentReachable.init 1⟩

theorem length_eraseP_add_one {α} (p : α → Bool) (l : List α)
    (h : l.any p = true) : (l.eraseP p).length + 1 = l.length := by
  induction l with
  | nil => simp at h
  | cons x xs ih =>
    by_cases hx : p x = true
    · rw [List.eraseP_cons_of_pos hx]
      simp
    · have hx' : p x = false := by simpa using hx
      have h' : xs.any p = true := by simpa [hx'] using h
      rw [List.eraseP_cons_of_neg (by simpa using hx)]
      have := ih h'
      simp only [List.length_cons]
      omega

theorem length_filter_eraseP_self {α} (p : α → Bool) (l : List α)
    (h : l.any p = true) :
    ((l.eraseP p).filter p).length + 1 = (l.filter p).length := by
  induction l with
  | nil => simp at h
  | cons x xs ih =>
    by_cases hx : p x = true
    · rw [List.eraseP_cons_of_pos hx, List.filter_cons_of_pos hx]
      simp
    · have hx' : p x = false := by simpa using hx
      have h' : xs.any p = true := by simpa [hx'] using h
      rw [List.eraseP_cons_of_neg (by simpa using hx),
          List.filter_cons_of_neg (by simpa using hx),
          List.filter_cons_of_neg (by simpa using hx)]
      exact ih h'

/-- Claim C4: for a student actively enrolled in a subject,
`unenroll_from_subject` fails with "Cannot unenroll from mandatory subjects"
and leaves the table untouched when the subject is mandatory, and succeeds —
deleting exactly the active enrollment row — when it is not; moreover it
only ever succeeds on a non-mandatory subject the student is actively
enrolled in. -/
theorem unenroll_mandatory_rules (db : List Enrollment) (st : StudentProfile)
    (subj : Subject) :
    (db.any (activeEnrollmentFor st.id subj.id) = true →
      (subj.is_mandatory = true →
        unenroll_from_subject db st subj =
          (false, "Cannot unenroll from mandatory subjects", db)) ∧
      (subj.is_mandatory = false →
        (unenroll_from_subject db st subj).1 = true ∧
        (unenroll_from_subject db st subj).2.1 =
          "Successfully unenrolled from " ++ subj.name ∧
        (unenroll_from_subject db st subj).2.2.length + 1 = db.length ∧
        ((unenroll_from_subject db st subj).2.2.filter
            (activeEnrollmentFor st.id subj.id)).length + 1 =
          (db.filter (activeEnrollmentFor st.id subj.id)).length)) ∧
    ((unenroll_from_subject db st subj).1 = true →
      subj.is_mandatory = false ∧
      db.any (activeEnrollmentFor st.id subj.id) = true) := by
  constructor
  · intro hact
    obtain ⟨x, hx, hpx⟩ := List.any_eq_true.mp hact
    cases hfind : db.find? (activeEnrollmentFor st.id subj.id) with
    | none => exact absurd hpx (List.find?_eq_none.mp hfind x hx)
    | some e =>
      constructor
      · intro hm
        simp [unenroll_from_subject, hfind, hm]
      · intro hm
        have hstate : (unenroll_from_subject db st subj).2.2 =
            db.eraseP (activeEnrollmentFor st.id subj.id) := by
          simp [unenroll_from_subject, hfind, hm]
        refine ⟨by simp [unenroll_from_subject, hfind, hm],
                by simp [unenroll_from_subject, hfind, hm], ?_, ?_⟩
        · rw [hstate]
          exact length_eraseP_add_one _ _ hact
        · rw [hstate]
          exact length_filter_eraseP_self _ _ hact
  · intro hsucc
    cases hfind : db.find? (activeEnrollmentFor st.id subj.id) with
    | none => simp [unenroll_from_subject, hfind] at hsucc
    | some e =>
      by_cases hm : subj.is_mandatory = true
      · simp [unenroll_from_subject, hfind, hm] at hsucc
      · have hel := List.mem_of_find?_eq_some hfind
        have hpe := List.find?_some hfind
        exact ⟨by simpa using hm, List.any_eq_true.mpr ⟨e, hel, hpe⟩⟩

/-- A table where student 1 is actively enrolled in subject 10. -/
def demoDbActive : List Enrollment := [⟨1, 10, true⟩]

/-- Subject 10 of class 5, mandatory and active. -/
def demoSubjectMandatory : Subject :=
  { id := 10, class_assigned := 5, name := "English",
    is_mandatory := true, is_active := true }

/-- Witness for C4: unenrolling from the mandatory subject fails and keeps
the table; unenrolling from the optional one succeeds. -/
theorem unenroll_mandatory_rules_witness :
    unenroll_from_subject demoDbActive demoStudent demoSubjectMandatory =
      (false, "Cannot unenroll from mandatory subjects", demoDbActive) ∧
    (unenroll_from_subject demoDbActive demoStudent demoSubject10).1 = true :=
  ⟨((unenroll_mandatory_rules demoDbActive demoStudent
      demoSubjectMandatory).1 (by decide)).1 rfl,
   (((unenroll_mandatory_rules demoDbActive demoStudent
      demoSubject10).1 (by decide)).2 rfl).1⟩

theorem pairEnrollmentCount_enroll (db : List Enrollment)
    (st : StudentProfile) (subj : Subject)
    (h : ∀ sid sj, pairEnrollmentCount db sid sj ≤ 1) :
    ∀ sid sj, pairEnrollmentCount (enroll_in_subject db st subj).2.2 sid sj ≤ 1 := by
  intro sid sj
  rcases enroll_state_cases db st subj with heq | ⟨hc, heq | ⟨hfind, heq⟩⟩
  · rw [heq]; exact h sid sj
  · rw [heq]
    unfold pairEnrollmentCount
    rw [length_filter_map_eq _ _ _ (fun a => by
      unfold enrollmentFor
      rw [reactivate_student_eq, reactivate_subject_eq])]
    exact h sid sj
  · rw [heq]
    unfold pairEnrollmentCount
    rw [length_filter_append_single]
    by_cases hps : enrollmentFor sid sj
        { student := st.id, subject := subj.id, is_active := true } = true
    · have hsid : st.id = sid ∧ subj.id = sj := by
        unfold enrollmentFor at hps
        simpa using hps
      obtain ⟨h1, h2⟩ := hsid
      subst h1
      subst h2
      have h0 : (db.filter (enrollmentFor st.id subj.id)).length = 0 := by
        rw [List.length_eq_zero, List.filter_eq_nil_iff]
        intro a ha
        have := List.find?_eq_none.mp hfind a ha
        simpa using this
      rw [if_pos hps, h0]
    · rw [if_neg hps]
      simpa using h sid sj

theorem pairEnrollmentCount_unenroll_le (db : List Enrollment)
    (st : StudentProfile) (subj : Subject) (sid sj : ℕ) :
    pairEnrollmentCount (unenroll_from_subject db st subj).2.2 sid sj ≤
      pairEnrollmentCount db sid sj := by
  rcases unenroll_state_cases db st subj with heq | heq
  · rw [heq]
  · rw [heq]
    exact length_filter_eraseP_le _ _ _

theorem can_enroll_false_of_active (db : List Enrollment)
    (st : StudentProfile) (subj : Subject)
    (h : db.any (activeEnrollmentFor st.id subj.id) = true) :
    (can_enroll_in_subject db st subj).1 = false := by
  unfold can_enroll_in_subject
  split_ifs <;> rfl

theorem enroll_reactivates (db : List Enrollment) (st : StudentProfile)
    (subj : Subject) (e : Enrollment) (hel : e ∈ db)
    (hpair : enrollmentFor st.id subj.id e = true)
    (hinact : e.is_active = false)
    (hc : (can_enroll_in_subject db st subj).1 = true) :
    enroll_in_subject db st subj =
      (true, "Successfully re-enrolled in subject",
        db.map (reactivateEnrollment st.id subj.id)) ∧
    (db.map (reactivateEnrollment st.id subj.id)).length = db.length ∧
    (db.map (reactivateEnrollment st.id subj.id)).any
        (activeEnrollmentFor st.id subj.id) = true := by
  have hany : db.any (activeEnrollmentFor st.id subj.id) = false :=
    (can_enroll_true_guards db st subj hc).2.1
  cases hfind : db.find? (enrollmentFor st.id subj.id) with
  | none => exact absurd hpair (List.find?_eq_none.mp hfind e hel)
  | some e₀ =>
    have he₀ : enrollmentFor st.id subj.id e₀ = true := List.find?_some hfind
    have hmem₀ : e₀ ∈ db := List.mem_of_find?_eq_some hfind
    have hinact₀ : e₀.is_active = false := by
      cases hb : e₀.is_active
      · rfl
      · exfalso
        have hact₀ : activeEnrollmentFor st.id subj.id e₀ = true := by
          unfold activeEnrollmentFor
          unfold enrollmentFor at he₀
          simp only [Bool.and_eq_true] at he₀ ⊢
          exact ⟨he₀, hb⟩
        have : db.any (activeEnrollmentFor st.id subj.id) = true :=
          List.any_eq_true.mpr ⟨e₀, hmem₀, hact₀⟩
        simp [this] at hany
    have heval : enroll_in_subject db st subj =
        (true, "Successfully re-enrolled in subject",
          db.map (reactivateEnrollment st.id subj.id)) := by
      simp [enroll_in_subject, hc, hfind, hinact₀]
    refine ⟨heval, List.length_map _ _, ?_⟩
    refine List.any_eq_true.mpr
      ⟨reactivateEnrollment st.id subj.id e, List.mem_map_of_mem _ hel, ?_⟩
    have hre : reactivateEnrollment st.id subj.id e =
        { e with is_active := true } := by
      unfold reactivateEnrollment
      rw [if_pos (by unfold enrollmentFor at hpair; exact hpair)]
    rw [hre]
    unfold activeEnrollmentFor
    unfold enrollmentFor at hpair
    simp only [Bool.and_eq_true] at hpair ⊢
    exact ⟨hpair, trivial⟩

theorem reachable_pairCount_le (db : List Enrollment)
    (h : EnrollmentReachable db) :
    ∀ sid sj, pairEnrollmentCount db sid sj ≤ 1 := by
  induction h with
  | init => intro sid sj; simp [pairEnrollmentCount]
  | enroll db st subj hr ih => exact pairEnrollmentCount_enroll db st subj ih
  | unenroll db st subj hr ih =>
    intro sid sj
    exact le_trans (pairEnrollmentCount_unenroll_le db st subj sid sj)
      (ih sid sj)

/-- Claim C6 (amended): every reachable enrollment table holds at most one
row per `(student, subject)` pair; when an ACTIVE row exists,
`enroll_in_subject` fails without modifying the table; when an inactive row
exists AND the `can_enroll_in_subject` guards pass, the call re-activates
that row in place (message "Successfully re-enrolled in subject", no row
added) rather than creating a second one. -/
theorem enrollment_pair_unique :
    (∀ db : List Enrollment, EnrollmentReachable db →
        ∀ sid sj, pairEnrollmentCount db sid sj ≤ 1) ∧
    (∀ (db : List Enrollment) (st : StudentProfile) (subj : Subject),
        db.any (activeEnrollmentFor st.id subj.id) = true →
        (enroll_in_subject db st subj).1 = false ∧
        (enroll_in_subject db st subj).2.2 = db) ∧
    (∀ (db : List Enrollment) (st : StudentProfile) (subj : Subject)
        (e : Enrollment), e ∈ db →
        enrollmentFor st.id subj.id e = true → e.is_active = false →
        (can_enroll_in_subject db st subj).1 = true →
        enroll_in_subject db st subj =
          (true, "Successfully re-enrolled in subject",
            db.map (reactivateEnrollment st.id subj.id)) ∧
        (db.map (reactivateEnrollment st.id subj.id)).length = db.length ∧
        (db.map (reactivateEnrollment st.id subj.id)).any
            (activeEnrollmentFor st.id subj.id) = true) := by
  refine ⟨reachable_pairCount_le, ?_, enroll_reactivates⟩
  intro db st subj h
  have hc := can_enroll_false_of_active db st subj h
  rw [enroll_of_check_false db st subj hc]
  exact ⟨rfl, rfl⟩

/-- A table where student 1 has a single INACTIVE row for subject 10. -/
def demoDbInactive : List Enrollment := [⟨1, 10, false⟩]

/-- Witness for C6 (amended): the empty table is pair-unique; with an active
row the call fails; with one inactive row and passing guards the row is
re-activated in place. -/
theorem enrollment_pair_unique_witness :
    pairEnrollmentCount [] 1 10 ≤ 1 ∧
    (enroll_in_subject demoDbActive demoStudent demoSubject10).1 = false ∧
    enroll_in_subject demoDbInactive demoStudent demoSubject10 =
      (true, "Successfully re-enrolled in subject",
        demoDbInactive.map (reactivateEnrollment 1 10)) :=
  ⟨enrollment_pair_unique.1 [] EnrollmentReachable.init 1 10,
   (enrollment_pair_unique.2.1 demoDbActive demoStudent demoSubject10
      (by decide)).1,
   (enrollment_pair_unique.2.2 demoDbInactive demoStudent demoSubject10
      ⟨1, 10, false⟩ (by decide) (by decide) rfl (by decide)).1⟩

/-- Counterexample to C6 as stated: student 1 holds an inactive row for
subject 10, yet `enroll_in_subject` does NOT re-activate it — the pre-checks
run first, and the 8-row limit (which counts inactive rows) rejects the
call, leaving the row inactive. -/
theorem enroll_reenroll_counterexample :
    Enrollment.mk 1 10 false ∈ demoDb8 ∧
    enroll_in_subject demoDb8 demoStudent demoSubject10 =
      (false, "Maximum subject limit reached (8 subjects)", demoDb8) := by
  constructor
  · decide
  · decide

/-- Subject 20 of class 6 — NOT the class of `demoStudent`. -/
def demoSubjectOtherClass : Subject :=
  { id := 20, class_assigned := 6, name := "Chemistry",
    is_mandatory := false, is_active := true }

/-- Counterexample to C8 as stated: student 1 holds 8 enrollment rows (all
inactive), yet for a subject of another class `can_enroll_in_subject` fails
with the class-mismatch message, not the limit message — the class guard
runs before the limit guard. -/
theorem enrollment_count_inactive_counterexample :
    get_enrollment_count demoDb8 demoStudent = 8 ∧
    activeEnrollmentCount demoDb8 1 = 0 ∧
    can_enroll_in_subject demoDb8 demoStudent demoSubjectOtherClass ≠
      (false, "Maximum subject limit reached (8 subjects)") :=
  ⟨by decide, by decide, by decide⟩

/-- Claim C8 (amended): when the subject matches the student's class and the
student is not actively enrolled in it, `can_enroll_in_subject` fails with
"Maximum subject limit reached (8 subjects)" as soon as the student has 8 or
more enrollment rows IN TOTAL — `get_enrollment_count` counts rows without
filtering on `is_active`, so inactive rows count towards the limit. -/
theorem enrollment_count_includes_inactive (db : List Enrollment)
    (st : StudentProfile) (subj : Subject)
    (h1 : st.class_assigned = some subj.class_assigned)
    (h2 : db.any (activeEnrollmentFor st.id subj.id) = false)
    (h8 : 8 ≤ get_enrollment_count db st) :
    can_enroll_in_subject db st subj =
      (false, "Maximum subject limit reached (8 subjects)") := by
  unfold can_enroll_in_subject
  rw [if_neg (fun hne => hne h1), if_neg (by simp [h2]), if_pos h8]

/-- Subject 21 of class 5, matching `demoStudent`'s class. -/
def demoSubjectSameClass : Subject :=
  { id := 21, class_assigned := 5, name := "Biology",
    is_mandatory := false, is_active := true }

/-- Witness for C8 (amended): with 8 inactive rows (0 active) and a subject
of the student's own class, the limit message is produced. -/
theorem enrollment_count_includes_inactive_witness :
    can_enroll_in_subject demoDb8 demoStudent demoSubjectSameClass =
      (false, "Maximum subject limit reached (8 subjects)") ∧
    activeEnrollmentCount demoDb8 1 < 8 :=
  ⟨enrollment_count_includes_inactive demoDb8 demoStudent
      demoSubjectSameClass rfl (by decide) (by decide),
   by decide⟩

/-- A row of the `Attendance` table (`core/models.py`): the two foreign keys,
the date (modelled as a day number), the status enum (a string among
`present`, `absent`, `late`, `excused`), free-text remarks and the nullable
`marked_by` teacher key. -/
structure Attendance where
  student : ℕ
  subject : ℕ
  date : ℤ
  status : String
  remarks : String
  marked_by : Option ℕ

/-- The `(student, subject, date)` key of the `unique_together` constraint. -/
def attendanceKeyFor (stId subjId : ℕ) (d : ℤ) (a : Attendance) : Bool :=
  a.student == stId && a.subject == subjId && a.date == d

/-- `Attendance.objects.update_or_create(student=.., subject=.., date=..,
defaults={status, remarks, marked_by})` as called in `mark_attendance`
(`teacher/views.py` lines 142-157): update the row with that key in place if
one exists, otherwise append a fresh row.  (Django updates the single row
matched by the unique key; mapping over the table coincides with that
whenever the key is unique.) -/
def update_or_create_attendance (db : List Attendance) (stId subjId : ℕ)
    (d : ℤ) (status remarks : String) (teacher : Option ℕ) :
    List Attendance :=
  if db.any (attendanceKeyFor stId subjId d) then
    db.map (fun a =>
      if attendanceKeyFor stId subjId d a then
        { a with status := status, remarks := remarks, marked_by := teacher }
      else a)
  else
    db ++ [{ student := stId, subject := subjId, date := d, status := status,
             remarks := remarks, marked_by := teacher }]

/-- `mark_attendance` (`teacher/views.py`): one POST submission loops over
the enrolled students and upserts one row per student, all with the same
subject, date and marking teacher. -/
def mark_attendance (db : List Attendance) (subjId : ℕ) (d : ℤ)
    (teacher : ℕ) (entries : List (ℕ × String × String)) :
    List Attendance :=
  entries.foldl
    (fun acc entry =>
      update_or_create_attendance acc entry.1 subjId d entry.2.1 entry.2.2
        (some teacher))
    db

/-- Attendance tables reachable from the empty table via `mark_attendance`
submissions. -/
inductive AttendanceReachable : List Attendance → Prop where
  | init : AttendanceReachable []
  | mark (db : List Attendance) (subjId : ℕ) (d : ℤ) (teacher : ℕ)
      (entries : List (ℕ × String × String)) :
      AttendanceReachable db →
      AttendanceReachable (mark_attendance db subjId d teacher entries)

/-- Rows holding a given `(student, subject, date)` key. -/
def attendanceKeyCount (db : List Attendance) (stId subjId : ℕ) (d : ℤ) :
    ℕ :=
  (db.filter (attendanceKeyFor stId subjId d)).length

theorem attendanceKeyCount_upsert (db : List Attendance) (stId subjId : ℕ)
    (d : ℤ) (s r : String) (t : Option ℕ)
    (h : ∀ sid sj dd, attendanceKeyCount db sid sj dd ≤ 1) :
    ∀ sid sj dd,
      attendanceKeyCount (update_or_create_attendance db stId subjId d s r t)
        sid sj dd ≤ 1 := by
  intro sid sj dd
  unfold update_or_create_attendance
  by_cases hex : db.any (attendanceKeyFor stId subjId d) = true
  · rw [if_pos hex]
    unfold attendanceKeyCount
    rw [length_filter_map_eq _ _ _ (fun a => by split <;> rfl)]
    exact h sid sj dd
  · rw [if_neg hex]
    unfold attendanceKeyCount
    rw [length_filter_append_single]
    by_cases hk : attendanceKeyFor sid sj dd
        { student := stId, subject := subjId, date := d, status := s,
          remarks := r, marked_by := t } = true
    · have hkey : (stId = sid ∧ subjId = sj) ∧ d = dd := by
        unfold attendanceKeyFor at hk
        simpa using hk
      obtain ⟨⟨e1, e2⟩, e3⟩ := hkey
      subst e1
      subst e2
      subst e3
      have h0 : (db.filter (attendanceKeyFor stId subjId d)).length = 0 := by
        rw [List.length_eq_zero, List.filter_eq_nil_iff]
        intro a ha hpa
        exact hex (List.any_eq_true.mpr ⟨a, ha, hpa⟩)
      rw [if_pos hk, h0]
    · rw [if_neg hk]
      simpa using h sid sj dd

theorem attendanceKeyCount_mark (subjId : ℕ) (d : ℤ) (teacher : ℕ)
    (entries : List (ℕ × String × String)) :
    ∀ db : List Attendance,
      (∀ sid sj dd, attendanceKeyCount db sid sj dd ≤ 1) →
      ∀ sid sj dd,
        attendanceKeyCount (mark_attendance db subjId d teacher entries)
          sid sj dd ≤ 1 := by
  induction entries with
  | nil => exact fun db h => h
  | cons e rest ih =>
    intro db h
    exact ih _
      (attendanceKeyCount_upsert db e.1 subjId d e.2.1 e.2.2 (some teacher) h)

theorem reachable_attendance_unique (db : List Attendance)
    (h : AttendanceReachable db) :
    ∀ (sid sj : ℕ) (dd : ℤ), attendanceKeyCount db sid sj dd ≤ 1 := by
  induction h with
  | init => intro sid sj dd; simp [attendanceKeyCount]
  | mark db subjId d teacher entries hr ih =>
    exact attendanceKeyCount_mark subjId d teacher entries db ih

/-- Claim C5: marking attendance is an upsert keyed by
`(student, subject, date)` — when a row with the key exists the submission
updates its status, remarks and marking teacher in place without changing
the number of rows, and every table reachable through `mark_attendance`
holds at most one row per key. -/
theorem attendance_upsert_unique :
    (∀ (db : List Attendance) (stId subjId : ℕ) (d : ℤ) (s r : String)
        (t : Option ℕ),
        db.any (attendanceKeyFor stId subjId d) = true →
        (update_or_create_attendance db stId subjId d s r t).length =
          db.length ∧
        ∃ a ∈ update_or_create_attendance db stId subjId d s r t,
          attendanceKeyFor stId subjId d a = true ∧
          a.status = s ∧ a.remarks = r ∧ a.marked_by = t) ∧
    (∀ db : List Attendance, AttendanceReachable db →
        ∀ (sid sj : ℕ) (dd : ℤ), attendanceKeyCount db sid sj dd ≤ 1) := by
  constructor
  · intro db stId subjId d s r t hex
    unfold update_or_create_attendance
    rw [if_pos hex]
    refine ⟨List.length_map _ _, ?_⟩
    obtain ⟨x, hx, hpx⟩ := List.any_eq_true.mp hex
    refine ⟨{ x with status := s, remarks := r, marked_by := t }, ?_,
            hpx, rfl, rfl, rfl⟩
    exact List.mem_map.mpr ⟨x, hx, by rw [if_pos hpx]⟩
  · exact reachable_attendance_unique

/-- A table with a single attendance row (student 1, subject 10, day 100,
absent). -/
def demoAttendanceDb : List Attendance :=
  [{ student := 1, subject := 10, date := 100, status := "absent",
     remarks := "", marked_by := none }]

/-- Witness for C5: upserting over the existing row keeps one row and
updates it; the empty table is key-unique. -/
theorem attendance_upsert_unique_witness :
    ((update_or_create_attendance demoAttendanceDb 1 10 100 "present" "ok"
        (some 7)).length = demoAttendanceDb.length ∧
      ∃ a ∈ update_or_create_attendance demoAttendanceDb 1 10 100 "present"
          "ok" (some 7),
        attendanceKeyFor 1 10 100 a = true ∧
        a.status = "present" ∧ a.remarks = "ok" ∧ a.marked_by = some 7) ∧
    attendanceKeyCount [] 1 10 100 ≤ 1 :=
  ⟨attendance_upsert_unique.1 demoAttendanceDb 1 10 100 "present" "ok"
      (some 7) (by decide),
   attendance_upsert_unique.2 [] AttendanceReachable.init 1 10 100⟩

/-- `Attendance.is_present` (`core/models.py` lines 562-565):
`self.status in ['present', 'late']`. -/
def is_present (a : Attendance) : Bool :=
  a.status == "present" || a.status == "late"

/-- The dictionary returned by `StudentProfile.get_attendance_summary`. -/
structure AttendanceSummary where
  total_classes : ℕ
  present_classes : ℕ
  absent_classes : ℕ
  attendance_percentage : ℚ

/-- `StudentProfile.get_attendance_summary` (`core/models.py` lines
257-278) over the student's attendance rows: count rows dated within the
last 30 days, count those with status in `['present', 'late']`, and report
`round(present / total * 100, 1)` (0 when the window has no rows). -/
def get_attendance_summary (records : List Attendance) (today : ℤ) :
    AttendanceSummary :=
  let thirty_days_ago := today - 30
  let total := (records.filter (fun a => decide (thirty_days_ago ≤ a.date))).length
  let present := (records.filter (fun a =>
      decide (thirty_days_ago ≤ a.date) &&
        (a.status == "present" || a.status == "late"))).length
  { total_classes := total,
    present_classes := present,
    absent_classes := total - present,
    attendance_percentage :=
      if 0 < total then pyround ((present : ℚ) / (total : ℚ) * 100) 1
      else 0 }

theorem filter_and_eq_filter_filter {α} (p q : α → Bool) (l : List α) :
    l.filter (fun a => p a && q a) = (l.filter p).filter q := by
  induction l with
  | nil => rfl
  | cons x xs ih =>
    by_cases hp : p x = true
    · by_cases hq : q x = true
      · rw [List.filter_cons_of_pos (by simp [hp, hq]),
            List.filter_cons_of_pos hp, List.filter_cons_of_pos hq, ih]
      · rw [List.filter_cons_of_neg (by simp [hp, hq]),
            List.filter_cons_of_pos hp,
            List.filter_cons_of_neg (by simpa using hq), ih]
    · rw [List.filter_cons_of_neg (by simp [hp]),
          List.filter_cons_of_neg (by simpa using hp), ih]

/-- Claim C9: `is_present` is true exactly for statuses `present` and
`late`, and `get_attendance_summary` counts those two statuses as present
over the 30-day window: its totals are the window row count and the
`is_present` row count, absences are their difference, and the percentage
is `round(present / total * 100, 1)` — or 0 when the window is empty. -/
theorem attendance_late_counts_present :
    (∀ a : Attendance,
        is_present a = true ↔ a.status = "present" ∨ a.status = "late") ∧
    (∀ (records : List Attendance) (today : ℤ),
        (get_attendance_summary records today).total_classes =
          (records.filter (fun a => decide (today - 30 ≤ a.date))).length ∧
        (get_attendance_summary records today).present_classes =
          ((records.filter (fun a => decide (today - 30 ≤ a.date))).filter
            is_present).length ∧
        (get_attendance_summary records today).absent_classes =
          (get_attendance_summary records today).total_classes -
            (get_attendance_summary records today).present_classes ∧
        ((records.filter (fun a => decide (today - 30 ≤ a.date))).length =
            0 →
          (get_attendance_summary records today).attendance_percentage =
            0) ∧
        (0 < (records.filter (fun a => decide (today - 30 ≤ a.date))).length →
          (get_attendance_summary records today).attendance_percentage =
            pyround
              ((((records.filter (fun a => decide (today - 30 ≤ a.date))).filter
                    is_present).length : ℚ) /
                ((records.filter
                    (fun a => decide (today - 30 ≤ a.date))).length : ℚ) *
                100) 1)) := by
  constructor
  · intro a
    unfold is_present
    simp
  · intro records today
    refine ⟨rfl, ?_, rfl, ?_, ?_⟩
    · rw [← filter_and_eq_filter_filter]
      rfl
    · intro h0
      simp only [get_attendance_summary]
      rw [if_neg (by rw [h0]; exact Nat.lt_irrefl 0)]
    · intro hpos
      simp only [get_attendance_summary]
      rw [if_pos hpos, ← filter_and_eq_filter_filter]
      unfold is_present
      rfl

/-- An attendance row with status `late`. -/
def demoLate : Attendance :=
  { student := 1, subject := 10, date := 100, status := "late",
    remarks := "", marked_by := none }

/-- Witness for C9: `late` counts as present, and a window with no rows
reports percentage 0. -/
theorem attendance_late_counts_present_witness :
    is_present demoLate = true ∧
    (get_attendance_summary demoAttendanceDb 200).attendance_percentage =
      0 :=
  ⟨(attendance_late_counts_present.1 demoLate).mpr (Or.inr rfl),
   (attendance_late_counts_present.2 demoAttendanceDb 200).2.2.2.1
     (by decide)⟩

/-- The `(student, subject, title, grade_type)` key of Grade's
`unique_together` constraint. -/
def gradeKeyFor (sid subjId : ℕ) (ttl gtype : String) (g : Grade) : Bool :=
  g.student == sid && g.subject == subjId && g.title == ttl &&
    g.grade_type == gtype

/-- `Grade.objects.create(...)`: inserting a row whose unique key already
exists raises an IntegrityError (modelled as `none`); otherwise the row is
saved (`Grade.save` runs, deriving percentage and letter grade) and
appended. -/
def grade_objects_create (db : List Grade) (g : Grade) :
    Option (List Grade) :=
  if db.any (gradeKeyFor g.student g.subject g.title g.grade_type) then none
  else some (db ++ [g.save])

/-- The `Grade` row built inside `add_grade` for one student: common title,
type, total marks and subject; `is_published=True`. -/
def mkGradeRow (sid subjId : ℕ) (ttl gtype : String) (m t : ℚ) : Grade :=
  { student := sid, subject := subjId, grade_type := gtype, title := ttl,
    marks_obtained := some m, total_marks := some t,
    percentage := none, letter_grade := none, is_published := true }

/-- The `for student in enrolled_students` loop inside `add_grade`'s
`transaction.atomic()` block (`teacher/views.py` lines 330-351): students
without marks are skipped (`if marks_obtained:`); each other student gets a
create; the first failure aborts the whole loop. -/
def add_grade_loop (subjId : ℕ) (ttl gtype : String) (total : ℚ) :
    List Grade → List (ℕ × Option ℚ) → Option (List Grade)
  | db, [] => some db
  | db, (_, none) :: rest => add_grade_loop subjId ttl gtype total db rest
  | db, (sid, some m) :: rest =>
    match grade_objects_create db (mkGradeRow sid subjId ttl gtype m total) with
    | none => none
    | some db2 => add_grade_loop subjId ttl gtype total db2 rest

/-- `add_grade` (`teacher/views.py` lines 330-351): the creations run in one
atomic transaction; when any creation raises, the transaction rolls back and
the table is returned unchanged with a failure flag. -/
def add_grade (db : List Grade) (subjId : ℕ) (ttl gtype : String)
    (total : ℚ) (entries : List (ℕ × Option ℚ)) : Bool × List Grade :=
  match add_grade_loop subjId ttl gtype total db entries with
  | none => (false, db)
  | some db2 => (true, db2)

/-- Grade tables reachable from the empty table via `add_grade` requests. -/
inductive GradeReachable : List Grade → Prop where
  | init : GradeReachable []
  | add (db : List Grade) (subjId : ℕ) (ttl gtype : String) (total : ℚ)
      (entries : List (ℕ × Option ℚ)) :
      GradeReachable db →
      GradeReachable (add_grade db subjId ttl gtype total entries).2

/-- Rows holding a given `(student, subject, title, grade_type)` key. -/
def gradeKeyCount (db : List Grade) (sid subjId : ℕ) (ttl gtype : String) :
    ℕ :=
  (db.filter (gradeKeyFor sid subjId ttl gtype)).length

theorem gradeKeyFor_save (sid subjId : ℕ) (ttl gtype : String) (g : Grade) :
    gradeKeyFor sid subjId ttl gtype g.save =
      gradeKeyFor sid subjId ttl gtype g := by
  unfold Grade.save
  split
  · split <;> rfl
  · rfl

theorem gradeKeyCount_create (db : List Grade) (g : Grade) (db2 : List Grade)
    (hc : grade_objects_create db g = some db2)
    (h : ∀ sid sj ttl gt, gradeKeyCount db sid sj ttl gt ≤ 1) :
    ∀ sid sj ttl gt, gradeKeyCount db2 sid sj ttl gt ≤ 1 := by
  intro sid sj ttl gt
  unfold grade_objects_create at hc
  by_cases hex :
      db.any (gradeKeyFor g.student g.subject g.title g.grade_type) = true
  · rw [if_pos hex] at hc
    exact absurd hc (by simp)
  · rw [if_neg hex] at hc
    have hdb2 := Option.some.inj hc
    subst hdb2
    unfold gradeKeyCount
    rw [length_filter_append_single]
    by_cases hk : gradeKeyFor sid sj ttl gt g.save = true
    · have hk' := hk
      rw [gradeKeyFor_save] at hk'
      have hkey : ((g.student = sid ∧ g.subject = sj) ∧ g.title = ttl) ∧
          g.grade_type = gt := by
        unfold gradeKeyFor at hk'
        simpa using hk'
      obtain ⟨⟨⟨e1, e2⟩, e3⟩, e4⟩ := hkey
      subst e1
      subst e2
      subst e3
      subst e4
      have h0 : (db.filter
          (gradeKeyFor g.student g.subject g.title g.grade_type)).length =
            0 := by
        rw [List.length_eq_zero, List.filter_eq_nil_iff]
        intro a ha hpa
        exact hex (List.any_eq_true.mpr ⟨a, ha, hpa⟩)
      rw [if_pos hk, h0]
    · rw [if_neg hk]
      simpa using h sid sj ttl gt

theorem any_gradeKey_create (db : List Grade) (g : Grade) (db2 : List Grade)
    (p : Grade → Bool) (hc : grade_objects_create db g = some db2)
    (h : db.any p = true) : db2.any p = true := by
  unfold grade_objects_create at hc
  by_cases hex :
      db.any (gradeKeyFor g.student g.subject g.title g.grade_type) = true
  · rw [if_pos hex] at hc
    exact absurd hc (by simp)
  · rw [if_neg hex] at hc
    have hdb2 := Option.some.inj hc
    subst hdb2
    rw [List.any_append]
    simp [h]

theorem gradeKeyCount_loop (subjId : ℕ) (ttl gtype : String) (total : ℚ) :
    ∀ (entries : List (ℕ × Option ℚ)) (db db2 : List Grade),
      add_grade_loop subjId ttl gtype total db entries = some db2 →
      (∀ sid sj t g, gradeKeyCount db sid sj t g ≤ 1) →
      ∀ sid sj t g, gradeKeyCount db2 sid sj t g ≤ 1 := by
  intro entries
  induction entries with
  | nil =>
    intro db db2 hloop h
    have hdb2 := Option.some.inj hloop
    subst hdb2
    exact h
  | cons e rest ih =>
    intro db db2 hloop h
    obtain ⟨sid0, mopt⟩ := e
    cases mopt with
    | none => exact ih db db2 hloop h
    | some m =>
      cases hc : grade_objects_create db
          (mkGradeRow sid0 subjId ttl gtype m total) with
      | none =>
        exfalso
        have hnone : add_grade_loop subjId ttl gtype total db
            ((sid0, some m) :: rest) = none := by
          simp only [add_grade_loop, hc]
        rw [hnone] at hloop
        cases hloop
      | some dbm =>
        have hstep : add_grade_loop subjId ttl gtype total db
            ((sid0, some m) :: rest) =
            add_grade_loop subjId ttl gtype total dbm rest := by
          simp only [add_grade_loop, hc]
        rw [hstep] at hloop
        exact ih dbm db2 hloop (gradeKeyCount_create db _ dbm hc h)

theorem reachable_grade_unique (db : List Grade) (h : GradeReachable db) :
    ∀ (sid sj : ℕ) (ttl gt : String), gradeKeyCount db sid sj ttl gt ≤ 1 := by
  induction h with
  | init => intro sid sj ttl gt; simp [gradeKeyCount]
  | add db subjId ttl gtype total entries hr ih =>
    intro sid sj t g
    unfold add_grade
    cases hloop : add_grade_loop subjId ttl gtype total db entries with
    | none => exact ih sid sj t g
    | some db2 =>
      exact gradeKeyCount_loop subjId ttl gtype total entries db db2 hloop
        ih sid sj t g

theorem add_grade_loop_dup_fails (subjId : ℕ) (ttl gtype : String)
    (total : ℚ) :
    ∀ (entries : List (ℕ × Option ℚ)) (db : List Grade),
      (∃ sid m, (sid, some m) ∈ entries ∧
        db.any (gradeKeyFor sid subjId ttl gtype) = true) →
      add_grade_loop subjId ttl gtype total db entries = none := by
  intro entries
  induction entries with
  | nil =>
    intro db ⟨sid, m, hmem, _⟩
    exact absurd hmem (List.not_mem_nil _)
  | cons e rest ih =>
    intro db ⟨sid, m, hmem, hdup⟩
    obtain ⟨sid0, mopt⟩ := e
    rcases List.mem_cons.mp hmem with heq | hmem2
    · injection heq with h1 h2
      subst h1
      subst h2
      have hcreate : grade_objects_create db
          (mkGradeRow sid subjId ttl gtype m total) = none := by
        unfold grade_objects_create mkGradeRow
        simp [hdup]
      simp only [add_grade_loop, hcreate]
    · cases mopt with
      | none => exact ih db ⟨sid, m, hmem2, hdup⟩
      | some m0 =>
        cases hc : grade_objects_create db
            (mkGradeRow sid0 subjId ttl gtype m0 total) with
        | none => simp only [add_grade_loop, hc]
        | some dbm =>
          have hstep : add_grade_loop subjId ttl gtype total db
              ((sid0, some m0) :: rest) =
              add_grade_loop subjId ttl gtype total dbm rest := by
            simp only [add_grade_loop, hc]
          rw [hstep]
          exact ih dbm
            ⟨sid, m, hmem2, any_gradeKey_create db _ dbm _ hc hdup⟩

/-- Claim C7: every reachable grade table holds at most one row per
`(student, subject, title, grade_type)` key; a failed `add_grade` request
leaves the table exactly as it was (the atomic transaction rolls back every
creation of the request); and a request containing a student whose
`(student, subject, title, grade_type)` combination already exists fails
with the table unchanged. -/
theorem grade_unique_atomic :
    (∀ db : List Grade, GradeReachable db →
        ∀ (sid sj : ℕ) (ttl gt : String),
          gradeKeyCount db sid sj ttl gt ≤ 1) ∧
    (∀ (db : List Grade) (subjId : ℕ) (ttl gtype : String) (total : ℚ)
        (entries : List (ℕ × Option ℚ)),
        ((add_grade db subjId ttl gtype total entries).1 = false →
          (add_grade db subjId ttl gtype total entries).2 = db) ∧
        (∀ (sid : ℕ) (m : ℚ), (sid, some m) ∈ entries →
          db.any (gradeKeyFor sid subjId ttl gtype) = true →
          add_grade db subjId ttl gtype total entries = (false, db))) := by
  refine ⟨reachable_grade_unique, ?_⟩
  intro db subjId ttl gtype total entries
  constructor
  · intro hfail
    unfold add_grade at hfail ⊢
    cases hloop : add_grade_loop subjId ttl gtype total db entries with
    | none => simp [hloop]
    | some db2 =>
      rw [hloop] at hfail
      simp at hfail
  · intro sid m hmem hdup
    have hloop := add_grade_loop_dup_fails subjId ttl gtype total entries db
      ⟨sid, m, hmem, hdup⟩
    unfold add_grade
    rw [hloop]

/-- Witness for C7: the empty table is key-unique, and a request duplicating
the key of the existing row `gradeZeroTotal` fails leaving the table
unchanged. -/
theorem grade_unique_atomic_witness :
    gradeKeyCount [] 1 1 "Quiz 1" "quiz" ≤ 1 ∧
    add_grade [gradeZeroTotal] 1 "Quiz 1" "quiz" 100 [(1, some 50)] =
      (false, [gradeZeroTotal]) :=
  ⟨grade_unique_atomic.1 [] GradeReachable.init 1 1 "Quiz 1" "quiz",
   (grade_unique_atomic.2 [gradeZeroTotal] 1 "Quiz 1" "quiz" 100
      [(1, some 50)]).2 1 50 (List.mem_singleton.mpr rfl) (by decide)⟩

/-- `StudentProfile.get_overall_gpa` (`core/models.py` lines 306-320):
filter the student's grades on `is_published=True`; return `0.0` when there
are none; aggregate `Avg('percentage')` (SQL `AVG` skips NULLs, yielding
NULL — falsy — when every value is NULL); return `round(avg / 25, 2)` when
the average is truthy and `0.0` otherwise (`0` is falsy in Python). -/
def get_overall_gpa (grades : List Grade) : ℚ :=
  if (grades.filter (fun g => g.is_published)).isEmpty then 0
  else
    match (grades.filter (fun g => g.is_published)).filterMap
        (fun g => g.percentage) with
    | [] => 0
    | v :: vs =>
      if (v :: vs).sum / (((v :: vs).length : ℕ) : ℚ) = 0 then 0
      else pyround ((v :: vs).sum / (((v :: vs).length : ℕ) : ℚ) / 25) 2

theorem filterMap_eq_map_of_no_none {α β} (f : α → Option β) (d : β)
    (l : List α) (h : ∀ a ∈ l, f a ≠ none) :
    l.filterMap f = l.map (fun a => (f a).getD d) := by
  induction l with
  | nil => rfl
  | cons x xs ih =>
    cases hx : f x with
    | none => exact absurd hx (h x (List.mem_cons_self x xs))
    | some b =>
      rw [List.filterMap_cons, hx, List.map_cons,
          ih (fun a ha => h a (List.mem_cons_of_mem x ha))]
      simp [hx]

theorem filter_idempotent {α} (p : α → Bool) (l : List α) :
    (l.filter p).filter p = l.filter p := by
  induction l with
  | nil => rfl
  | cons x xs ih =>
    by_cases hx : p x = true
    · rw [List.filter_cons_of_pos hx, List.filter_cons_of_pos hx, ih]
    · rw [List.filter_cons_of_neg (by simpa using hx)]
      exact ih

/-- Claim C10: when every published grade carries a (non-NULL) percentage,
`get_overall_gpa` returns `round(avg / 25, 2)` where `avg` is the mean
percentage of the published grades only, returns `0` when there is no
published grade, and is insensitive to unpublished grades. -/
theorem gpa_published_only (grades : List Grade)
    (hall : ∀ g ∈ grades, g.is_published = true → g.percentage ≠ none) :
    (grades.filter (fun g => g.is_published) = [] →
      get_overall_gpa grades = 0) ∧
    (grades.filter (fun g => g.is_published) ≠ [] →
      get_overall_gpa grades =
        pyround
          (((grades.filter (fun g => g.is_published)).map
              (fun g => g.percentage.getD 0)).sum /
            (((grades.filter (fun g => g.is_published)).length : ℕ) : ℚ) /
            25) 2) ∧
    get_overall_gpa grades =
      get_overall_gpa (grades.filter (fun g => g.is_published)) := by
  have hpm : ∀ g ∈ grades.filter (fun g => g.is_published),
      g.percentage ≠ none := by
    intro g hg
    have hmem := List.mem_filter.mp hg
    exact hall g hmem.1 hmem.2
  have hvals := filterMap_eq_map_of_no_none (fun g => g.percentage) 0
    (grades.filter (fun g => g.is_published)) hpm
  refine ⟨?_, ?_, ?_⟩
  · intro hpub
    unfold get_overall_gpa
    rw [if_pos (by simp [hpub])]
  · intro hne
    unfold get_overall_gpa
    rw [if_neg (by simpa [List.isEmpty_iff] using hne)]
    cases hv : (grades.filter (fun g => g.is_published)).filterMap
        (fun g => g.percentage) with
    | nil =>
      rw [hvals] at hv
      exact absurd (List.map_eq_nil_iff.mp hv) hne
    | cons v vs =>
      have hlink : v :: vs = (grades.filter (fun g => g.is_published)).map
          (fun g => g.percentage.getD 0) := by
        rw [← hv, hvals]
      have hsum : ((grades.filter (fun g => g.is_published)).map
          (fun g => g.percentage.getD 0)).sum = (v :: vs).sum := by
        rw [hlink]
      have hlen : (((grades.filter (fun g => g.is_published)).length : ℕ) :
          ℚ) = (((v :: vs).length : ℕ) : ℚ) := by
        rw [hlink, List.length_map]
      rw [hsum, hlen]
      show (if (v :: vs).sum / (((v :: vs).length : ℕ) : ℚ) = 0 then (0 : ℚ)
            else pyround ((v :: vs).sum / (((v :: vs).length : ℕ) : ℚ) / 25)
              2) =
          pyround ((v :: vs).sum / (((v :: vs).length : ℕ) : ℚ) / 25) 2
      by_cases h0 : (v :: vs).sum / (((v :: vs).length : ℕ) : ℚ) = 0
      · rw [if_pos h0, h0]
        norm_num [pyround, roundHalfEven]
      · rw [if_neg h0]
  · unfold get_overall_gpa
    rw [filter_idempotent]

/-- Three grade rows of one student: 80 % and 90 % published, 40 % not. -/
def demoGrades : List Grade :=
  [{ student := 1, subject := 1, grade_type := "quiz", title := "Q1",
     marks_obtained := some 80, total_marks := some 100,
     percentage := some 80, letter_grade := some "B-",
     is_published := true },
   { student := 1, subject := 1, grade_type := "quiz", title := "Q2",
     marks_obtained := some 90, total_marks := some 100,
     percentage := some 90, letter_grade := some "A-",
     is_published := true },
   { student := 1, subject := 1, grade_type := "quiz", title := "Q3",
     marks_obtained := some 40, total_marks := some 100,
     percentage := some 40, letter_grade := some "F",
     is_published := false }]

/-- Witness for C10: the GPA of `demoGrades` is `(80 + 90)/2 / 25 = 3.4`;
the unpublished 40 % grade does not lower it. -/
theorem gpa_published_only_witness : get_overall_gpa demoGrades = 17/5 := by
  have hall : ∀ g ∈ demoGrades, g.is_published = true →
      g.percentage ≠ none := by
    intro g hg
    rcases (by simpa [demoGrades] using hg) with rfl | rfl | rfl <;> simp
  have h := (gpa_published_only demoGrades hall).2.1
    (by simp [demoGrades])
  rw [h]
  norm_num [demoGrades, pyround, roundHalfEven]

end SchoolMgmt
